import Mathlib

/- Verification of the student-results service core: header normalization,
   row flattening, column lookup and the aggregation endpoints, embedded
   from src/main.py.  Python strings are modelled as lists of Unicode code
   points, pandas cells as an explicit scalar type, and each request
   handler as a total function returning an Except value whose error side
   is the HTTP error produced at the request boundary. -/

/- The rational operations of Batteries are marked irreducible, which
   blocks evaluation of concrete aggregates; re-allow unfolding so that
   closed computations can be settled by decide. -/
attribute [local semireducible] Rat.mul Rat.add Rat.inv Rat.sub Rat.ofScientific

namespace Tempx

/-- Python strings as lists of Unicode code points. -/
abbrev PyStr := List Nat

/-- Code points of a Lean string literal, for writing concrete Python strings. -/
def pyStr (s : String) : PyStr := s.data.map Char.toNat

/-- ASCII whitespace stripped by the Python str.strip call in normalize_key.
    The characters removed by strip that are not ASCII are immaterial here
    because the subsequent regex filter removes every non-alphanumeric
    character anyway. -/
def isPySpace (c : Nat) : Bool :=
  c == 32 || c == 9 || c == 10 || c == 13 || c == 11 || c == 12

/-- The character class of the regex [a-zA-Z0-9] in normalize_key. -/
def isAsciiAlnum (c : Nat) : Bool :=
  (48 ≤ c && c ≤ 57) || (65 ≤ c && c ≤ 90) || (97 ≤ c && c ≤ 122)

/-- Python str.upper on one character; only applied to ASCII alphanumeric
    characters (the survivors of the regex filter), where it is the ASCII map. -/
def pyUpperChar (c : Nat) : Nat := if 97 ≤ c && c ≤ 122 then c - 32 else c

/-- Python str.lower on one character, ASCII range. -/
def pyLowerChar (c : Nat) : Nat := if 65 ≤ c && c ≤ 90 then c + 32 else c

/-- Python str.lower, ASCII range. -/
def pyLower (s : PyStr) : PyStr := s.map pyLowerChar

/-- Python str.strip: drop whitespace from both ends. -/
def pyStrip (s : PyStr) : PyStr :=
  ((s.dropWhile isPySpace).reverse.dropWhile isPySpace).reverse

/-- Whether the first list is a prefix of the second. -/
def listStartsWith : PyStr → PyStr → Bool
  | [], _ => true
  | _ :: _, [] => false
  | a :: as, b :: bs => a == b && listStartsWith as bs

/-- The Python in operator on strings: contiguous substring containment. -/
def pyIn (needle : PyStr) : PyStr → Bool
  | [] => listStartsWith needle []
  | b :: t => listStartsWith needle (b :: t) || pyIn needle t

/-- Decimal digits of a natural number, as Python renders one. -/
def pyStrOfNat (n : Nat) : PyStr := (Nat.toDigits 10 n).map Char.toNat

/-- Decimal rendering of an integer. -/
def pyStrOfInt (i : Int) : PyStr :=
  if i < 0 then 45 :: pyStrOfNat i.natAbs else pyStrOfNat i.natAbs

/-- A column identifier of the loaded DataFrame: a single label for a
    flat header, or a pair of labels for a two-level header. -/
inductive Col
  | single (label : PyStr)
  | pair (top sub : PyStr)
deriving DecidableEq

/-- A cell value of a row: a number, a string, or the missing marker NaN.
    Numbers are exact rationals standing for the numeric cells. -/
inductive Value
  | num (q : ℚ)
  | vstr (s : PyStr)
  | na
deriving DecidableEq

/-- A row record: the cells of one student keyed by column identifier. -/
abbrev Row := List (Col × Value)

/-- Cell lookup: pandas guarantees a cell under every column of the frame,
    so a key absent from the association list reads as missing. -/
def rowGet (r : Row) (c : Col) : Value :=
  match r.find? (fun p => decide (p.1 = c)) with
  | some p => p.2
  | none => .na

/-- The loaded DataFrame: an ordered column sequence and the row records. -/
structure DataFrame where
  cols : List Col
  rows : List Row

/-- Python repr of a string as it appears inside str of a tuple: quoted
    with a single quote, or with a double quote when the text contains a
    single quote and no double quote.  Backslash escaping is not modelled;
    no label in the claims contains a quote. -/
def pyReprStr (s : PyStr) : PyStr :=
  if s.contains 39 && !(s.contains 34) then 34 :: (s ++ [34]) else 39 :: (s ++ [39])

/-- Python str of a column identifier: a plain label is its own string,
    a tuple renders as the parenthesized pair of the reprs of its parts. -/
def pyStrOfCol : Col → PyStr
  | .single l => l
  | .pair a b => 40 :: (pyReprStr a ++ 44 :: 32 :: pyReprStr b ++ [41])

/-- Python str of a cell value, as produced by astype(str): a string cell
    is itself, an integral number renders in decimal like an int64 cell,
    and NaN renders as nan.  Non-integral numeric identity cells do not
    occur in any claim, so their float rendering is reduced to num/den. -/
def pyStrOfValue : Value → PyStr
  | .vstr s => s
  | .num q => if q.den = 1 then pyStrOfInt q.num
              else pyStrOfInt q.num ++ 47 :: pyStrOfNat q.den
  | .na => pyStr "nan"

/-- normalize_key of src/main.py: strip, drop every character outside
    [a-zA-Z0-9], then uppercase the first remaining character. -/
def normalize_key (key : PyStr) : PyStr :=
  match (pyStrip key).filter isAsciiAlnum with
  | [] => []
  | c :: rest => pyUpperChar c :: rest

/-- The flat key of one column inside convert_to_flat_json: a tuple column
    whose sub label contains Unnamed or strips to nothing keys by its top
    label alone, any other tuple keys as top, underscore, sub, and a single
    label keys by itself. -/
def colKey : Col → PyStr
  | .single l => normalize_key l
  | .pair top sub =>
      if pyIn (pyStr "Unnamed") sub = true ∨ pyStrip sub = [] then normalize_key top
      else normalize_key top ++ 95 :: normalize_key sub

/-- Python dict assignment: replace the value under an existing key in
    place, otherwise append the binding at the end. -/
def dictSet {V : Type} (d : List (PyStr × V)) (k : PyStr) (v : V) : List (PyStr × V) :=
  match d with
  | [] => [(k, v)]
  | (k0, v0) :: rest =>
      if k0 = k then (k0, v) :: rest else (k0, v0) :: dictSet rest k v

/-- Python dict lookup. -/
def dictGet {V : Type} (d : List (PyStr × V)) (k : PyStr) : Option V :=
  match d with
  | [] => none
  | (k0, v0) :: rest => if k0 = k then some v0 else dictGet rest k

/-- The setdefault-and-append idiom of the averaging endpoints: push a
    value onto the list stored under a key, creating the key at the end
    of the dict when absent. -/
def dictAppend {A : Type} (d : List (PyStr × List A)) (k : PyStr) (v : A) :
    List (PyStr × List A) :=
  match d with
  | [] => [(k, [v])]
  | (k0, vs) :: rest =>
      if k0 = k then (k0, vs ++ [v]) :: rest else (k0, vs) :: dictAppend rest k v

/-- The inner loop of convert_to_flat_json: one flat record for one row. -/
def flattenRow (cols : List Col) (row : Row) : List (PyStr × Value) :=
  cols.foldl (fun student c => dictSet student (colKey c) (rowGet row c)) []

/-- convert_to_flat_json of src/main.py: one flat record per row, in row
    order, each built by writing every column in column order. -/
def convert_to_flat_json (df : DataFrame) : List (List (PyStr × Value)) :=
  df.rows.map (flattenRow df.cols)

/-- The match test of find_roll_col: the keyword roll occurs, case
    insensitively, in either level of a tuple column or in a flat label. -/
def rollMatches : Col → Bool
  | .pair top sub => pyIn (pyStr "roll") (pyLower top) || pyIn (pyStr "roll") (pyLower sub)
  | .single l => pyIn (pyStr "roll") (pyLower l)

/-- find_roll_col of src/main.py: first match in column order. -/
def find_roll_col : List Col → Option Col
  | [] => none
  | c :: rest => if rollMatches c then some c else find_roll_col rest

/-- An HTTPException as raised by the handlers: status code and detail. -/
structure HTTPError where
  status : Nat
  detail : PyStr
deriving DecidableEq

/-- The exceptions that can escape a handler body: an HTTPException, or
    the StopIteration escaping a bare next call on an empty generator. -/
inductive PyErr
  | http (e : HTTPError)
  | stopIteration
deriving DecidableEq

/-- Python str of an exception: an HTTPException prints status, colon,
    detail; a bare StopIteration prints as the empty string. -/
def strOfErr : PyErr → PyStr
  | .http e => pyStrOfNat e.status ++ 58 :: 32 :: e.detail
  | .stopIteration => []

/-- The blanket except clause wrapping every handler body: any exception
    raised inside the try block, the 404 HTTPExceptions included, is
    re-raised as a fresh HTTPException with status 500 and detail str(e). -/
def exceptAll {A : Type} : Except PyErr A → Except PyErr A
  | .ok a => .ok a
  | .error e => .error (.http ⟨500, strOfErr e⟩)

/-- The HTTP status a client observes from a handler result. -/
def statusOf {A : Type} : Except PyErr A → Option Nat
  | .error (.http e) => some e.status
  | .error .stopIteration => none
  | .ok _ => none

/-- The row filter of the identity endpoints: astype(str).str.lower()
    compared with the lowercased query. -/
def cellMatchesQuery (r : Row) (c : Col) (q : PyStr) : Bool :=
  decide (pyLower (pyStrOfValue (rowGet r c)) = pyLower q)

/-- get_student_by_roll of src/main.py. -/
def get_student_by_roll (df : DataFrame) (roll_no : PyStr) :
    Except PyErr (List (PyStr × Value)) :=
  exceptAll (match find_roll_col df.cols with
    | none => .error (.http ⟨500, pyStr "Roll No column not found in Excel!"⟩)
    | some rc =>
      let srows := df.rows.filter (fun r => cellMatchesQuery r rc roll_no)
      if srows.isEmpty then .error (.http ⟨404, pyStr "Student not found!"⟩)
      else
        match convert_to_flat_json ⟨df.cols, srows⟩ with
        | r0 :: _ => .ok r0
        | [] => .error (.http ⟨500, pyStr "list index out of range"⟩))

/-- The generator condition locating the department column: the keyword
    dept occurs, case insensitively, in str of the column identifier. -/
def deptColMatches (c : Col) : Bool := pyIn (pyStr "dept") (pyLower (pyStrOfCol c))

/-- The generator condition locating the CRT batch column. -/
def crtColMatches (c : Col) : Bool := pyIn (pyStr "crt") (pyLower (pyStrOfCol c))

/-- get_students_by_department of src/main.py: StopIteration from a
    missing column is caught by its own clause; an empty filter result is
    returned as an empty list. -/
def get_students_by_department (df : DataFrame) (dept : PyStr) :
    Except PyErr (List (List (PyStr × Value))) :=
  match df.cols.find? deptColMatches with
  | none => .error (.http ⟨500, pyStr "Department column not found!"⟩)
  | some dcol =>
      exceptAll (.ok (convert_to_flat_json
        ⟨df.cols, df.rows.filter (fun r => cellMatchesQuery r dcol dept)⟩))

/-- get_students_by_crt of src/main.py. -/
def get_students_by_crt (df : DataFrame) (crt_batch : PyStr) :
    Except PyErr (List (List (PyStr × Value))) :=
  match df.cols.find? crtColMatches with
  | none => .error (.http ⟨500, pyStr "CRT column not found!"⟩)
  | some ccol =>
      exceptAll (.ok (convert_to_flat_json
        ⟨df.cols, df.rows.filter (fun r => cellMatchesQuery r ccol crt_batch)⟩))

/-- The platform column filter shared by get_platform_average and
    get_platform_topper: tuple columns whose top label contains the
    queried platform name, case insensitively. -/
def platformCols (cols : List Col) (platform : PyStr) : List Col :=
  cols.filter (fun c =>
    match c with
    | .pair top _ => pyIn (pyLower platform) (pyLower top)
    | .single _ => false)

/-- The raw second level of a tuple column, as read by col[1]. -/
def colSub : Col → PyStr
  | .pair _ s => s
  | .single l => l

/-- The numeric reading of a cell: pandas numeric aggregation skips NaN;
    string cells do not occur in the test columns of the claims. -/
def valueNum : Value → Option ℚ
  | .num q => some q
  | _ => none

/-- Floor of a rational as an integer, by floor division of the parts. -/
def ratFloor (q : ℚ) : ℤ := Int.fdiv q.num q.den

/-- Python round(x, 2): scale by 100 and round half to even, on the exact
    rational standing for the float. -/
def pyRound2 (q : ℚ) : ℚ :=
  ((if (1 : ℚ) / 2 < q * 100 - ratFloor (q * 100) then ratFloor (q * 100) + 1
    else if q * 100 - ratFloor (q * 100) < (1 : ℚ) / 2 then ratFloor (q * 100)
    else if ratFloor (q * 100) % 2 = 0 then ratFloor (q * 100)
    else ratFloor (q * 100) + 1 : ℤ) : ℚ) / 100

/-- Series.mean of one column over a set of rows: the mean of the numeric
    cells, NaN (none) when no numeric cell exists. -/
def colMean (rows : List Row) (c : Col) : Option ℚ :=
  match rows.filterMap (fun r => valueNum (rowGet r c)) with
  | [] => none
  | v :: vs => some (((v :: vs).sum) / ((v :: vs).length : ℚ))

/-- get_platform_average of src/main.py: each located column averaged
    independently over all rows, keyed by the raw queried platform name,
    an underscore and the raw sub label. -/
def get_platform_average (df : DataFrame) (platform : PyStr) :
    Except PyErr (List (PyStr × Option ℚ)) :=
  exceptAll (
    if (platformCols df.cols platform).isEmpty then
      .error (.http ⟨404, pyStr "Platform " ++ 39 :: platform ++ 39 :: pyStr " not found!"⟩)
    else
      .ok ((platformCols df.cols platform).foldl
        (fun d c => dictSet d (platform ++ 95 :: colSub c) ((colMean df.rows c).map pyRound2))
        []))

/-- The grouping loop of get_student_average: raw cells of the tuple
    columns whose sub label does not contain Unnamed, grouped by the
    normalized top label, in column order. -/
def studentGroups (cols : List Col) (row : Row) : List (PyStr × List Value) :=
  cols.foldl
    (fun d c =>
      match c with
      | .pair top sub =>
          if pyIn (pyStr "Unnamed") sub then d
          else dictAppend d (normalize_key top) (rowGet row (.pair top sub))
      | .single _ => d)
    []

/-- round(sum(v) div len(v), 2) over raw cells: NaN as soon as a cell is
    missing, since NaN propagates through sum; string cells do not occur
    in the grouped columns of the claims. -/
def cellsMean (vs : List Value) : Option ℚ :=
  if vs.all (fun v => (valueNum v).isSome) then
    some (pyRound2 ((vs.filterMap valueNum).sum / (vs.length : ℚ)))
  else none

/-- get_student_average of src/main.py. -/
def get_student_average (df : DataFrame) (roll_no : PyStr) :
    Except PyErr (List (PyStr × Option ℚ)) :=
  exceptAll (match find_roll_col df.cols with
    | none => .error (.http ⟨500, pyStr "Roll No column not found in Excel!"⟩)
    | some rc =>
      match df.rows.filter (fun r => cellMatchesQuery r rc roll_no) with
      | [] => .error (.http ⟨404, pyStr "Student not found!"⟩)
      | row :: _ => .ok ((studentGroups df.cols row).map (fun p => (p.1, cellsMean p.2))))

/-- The grouping loop of get_department_average: per-column means over the
    filtered rows, grouped by the normalized top label, in column order. -/
def deptGroups (cols : List Col) (rows : List Row) : List (PyStr × List (Option ℚ)) :=
  cols.foldl
    (fun d c =>
      match c with
      | .pair top sub =>
          if pyIn (pyStr "Unnamed") sub then d
          else dictAppend d (normalize_key top) (colMean rows (.pair top sub))
      | .single _ => d)
    []

/-- round(sum(v) div len(v), 2) over per-column means: NaN as soon as one
    mean is NaN. -/
def meansMean (vs : List (Option ℚ)) : Option ℚ :=
  if vs.all (fun v => v.isSome) then
    some (pyRound2 ((vs.filterMap id).sum / (vs.length : ℚ)))
  else none

/-- get_department_average of src/main.py: the missing-column
    StopIteration and the 404 raised for an empty filter are both caught
    by the blanket except clause. -/
def get_department_average (df : DataFrame) (dept : PyStr) :
    Except PyErr (List (PyStr × Option ℚ)) :=
  exceptAll (match df.cols.find? deptColMatches with
    | none => .error .stopIteration
    | some dcol =>
      let drows := df.rows.filter (fun r => cellMatchesQuery r dcol dept)
      if drows.isEmpty then
        .error (.http ⟨404, pyStr "No students found for this department!"⟩)
      else .ok ((deptGroups df.cols drows).map (fun p => (p.1, meansMean p.2))))

/-- The row-wise total of get_platform_topper: sum of the platform cells
    of one row, a missing cell contributing zero. -/
def rowTotal (pcols : List Col) (r : Row) : ℚ :=
  (pcols.map (fun c => (valueNum (rowGet r c)).getD 0)).sum

/-- Series.idxmax: position and value of the first maximal element, none
    on the empty series (where pandas raises). -/
def maxIdxVal : List ℚ → Option (Nat × ℚ)
  | [] => none
  | x :: xs =>
    match maxIdxVal xs with
    | none => some (0, x)
    | some (j, v) => if x < v then some (j + 1, v) else some (0, x)

/-- get_platform_topper of src/main.py: returns the roll cell and the
    total of the row with the first maximal row-wise platform total. -/
def get_platform_topper (df : DataFrame) (platform : PyStr) :
    Except PyErr (Value × ℚ) :=
  exceptAll (match find_roll_col df.cols with
    | none => .error (.http ⟨500, pyStr "Roll No column not found in Excel!"⟩)
    | some rc =>
      match maxIdxVal (df.rows.map (rowTotal (platformCols df.cols platform))) with
      | none => .error (.http ⟨500, pyStr "attempt to get argmax of an empty sequence"⟩)
      | some (i, v) => .ok (rowGet (df.rows.getD i []) rc, v))

/-- Header normalization as the specification words it: remove every
    character that is not an ASCII letter or digit, then capitalize the
    first remaining character; empty when nothing remains. -/
def specNormalize (s : PyStr) : PyStr :=
  match s.filter isAsciiAlnum with
  | [] => []
  | c :: rest => pyUpperChar c :: rest

/-- The roll-number column of the concrete datasets below, carrying the
    pandas placeholder sub label of an unlabeled second-tier cell. -/
def colRoll : Col := .pair (pyStr "RollNo") (pyStr "Unnamed: 0")

/-- The department column of the concrete datasets below. -/
def colDept : Col := .pair (pyStr "Dept") (pyStr "Unnamed: 1")

/-- The first College test column of the concrete datasets below. -/
def colT1 : Col := .pair (pyStr "College") (pyStr "Test1")

/-- The second College test column of the concrete datasets below. -/
def colT2 : Col := .pair (pyStr "College") (pyStr "Test2")

/-- A row of the concrete datasets: roll number, department, one test cell. -/
def exRow (roll dept : String) (t1 : Value) : Row :=
  [(colRoll, .vstr (pyStr roll)), (colDept, .vstr (pyStr dept)), (colT1, t1)]

/-- The scenario dataset of the specification: two CSE students with
    College Test1 scores 80 and 100. -/
def exDf : DataFrame :=
  ⟨[colRoll, colDept, colT1], [exRow "A1" "CSE" (.num 80), exRow "A2" "CSE" (.num 100)]⟩

/-- A row with two test cells, for the mean-of-means dataset. -/
def exRow2 (roll dept : String) (t1 t2 : Value) : Row :=
  [(colRoll, .vstr (pyStr roll)), (colDept, .vstr (pyStr dept)), (colT1, t1), (colT2, t2)]

/-- A dataset on which the mean of per-column means differs from the flat
    mean over all cells: Test1 has cells 80 and 100, Test2 has one cell 60
    and one missing, so the per-column means are 90 and 60 and their mean
    is 75, while the flat mean of the three cells is 80. -/
def exDf2 : DataFrame :=
  ⟨[colRoll, colDept, colT1, colT2],
   [exRow2 "A1" "CSE" (.num 80) (.num 60), exRow2 "A2" "CSE" (.num 100) .na]⟩

/-- A dataset with a tie for the maximal College total between the first
    two rows. -/
def exDfTie : DataFrame :=
  ⟨[colRoll, colDept, colT1],
   [exRow "A1" "CSE" (.num 100), exRow "A2" "CSE" (.num 100), exRow "A3" "CSE" (.num 50)]⟩

/-- A dataset whose columns carry no roll keyword. -/
def exDfNoRoll : DataFrame := ⟨[colDept, colT1], [ ]⟩

/-- The flattening example row of the specification: cells 80 and 90 under
    the two College test columns. -/
def exRowC4 : Row := [(colT1, .num 80), (colT2, .num 90)]

/-- A CRT batch column. -/
def colCrt : Col := .pair (pyStr "CRT Batch") (pyStr "Unnamed: 2")

/-- A row carrying a CRT batch cell. -/
def exRowCrt (roll crt : String) : Row :=
  [(colRoll, .vstr (pyStr roll)), (colCrt, .vstr (pyStr crt)), (colT1, .num 10)]

/-- A dataset with a CRT batch column. -/
def exDfCrt : DataFrame := ⟨[colRoll, colCrt, colT1], [exRowCrt "A1" "Batch1"]⟩

end Tempx

/-- Decidable equality of handler results, so that closed evaluations can
    be settled by decide. -/
instance {E A : Type} [DecidableEq E] [DecidableEq A] : DecidableEq (Except E A) :=
  fun x y =>
  match x, y with
  | .ok a, .ok b => if h : a = b then .isTrue (by rw [h]) else .isFalse (by simp [h])
  | .error a, .error b => if h : a = b then .isTrue (by rw [h]) else .isFalse (by simp [h])
  | .ok _, .error _ => .isFalse (by simp)
  | .error _, .ok _ => .isFalse (by simp)

namespace Tempx

/-- A whitespace character is not an ASCII alphanumeric character. -/
theorem space_not_alnum (c : Nat) (h : isPySpace c = true) : isAsciiAlnum c = false := by
  simp only [isPySpace, Bool.or_eq_true, beq_iff_eq] at h
  rcases h with ((((h | h) | h) | h) | h) | h <;> subst h <;> decide

/-- An ASCII alphanumeric character is not whitespace. -/
theorem alnum_not_space (c : Nat) (h : isAsciiAlnum c = true) : isPySpace c = false := by
  cases hb : isPySpace c
  · rfl
  · rw [space_not_alnum c hb] at h
    exact absurd h (by simp)

/-- Uppercasing preserves membership in the ASCII alphanumeric class. -/
theorem pyUpperChar_alnum (c : Nat) (h : isAsciiAlnum c = true) :
    isAsciiAlnum (pyUpperChar c) = true := by
  simp only [isAsciiAlnum, Bool.or_eq_true, Bool.and_eq_true, decide_eq_true_eq] at h
  simp only [pyUpperChar, isAsciiAlnum]
  split
  · rename_i h2
    simp only [Bool.and_eq_true, decide_eq_true_eq] at h2
    simp only [Bool.or_eq_true, Bool.and_eq_true, decide_eq_true_eq]
    omega
  · rename_i h2
    simp only [Bool.or_eq_true, Bool.and_eq_true, decide_eq_true_eq]
    simp only [Bool.and_eq_true, decide_eq_true_eq, not_and, not_le] at h2
    omega

/-- Uppercasing one character is idempotent. -/
theorem pyUpperChar_idem (c : Nat) : pyUpperChar (pyUpperChar c) = pyUpperChar c := by
  simp only [pyUpperChar]
  split
  · rename_i h
    simp only [Bool.and_eq_true, decide_eq_true_eq] at h
    rw [if_neg]
    simp only [Bool.and_eq_true, decide_eq_true_eq, not_and, not_le]
    omega
  · rfl

/-- Dropping a prefix of characters that a filter rejects anyway does not
    change the filter result. -/
theorem filter_dropWhile_of_imp (p q : Nat → Bool) (h : ∀ c, p c = true → q c = false)
    (l : PyStr) : (l.dropWhile p).filter q = l.filter q := by
  induction l with
  | nil => rfl
  | cons a t ih =>
    by_cases hp : p a = true
    · rw [List.dropWhile_cons_of_pos hp, ih, List.filter_cons_of_neg (by simp [h a hp])]
    · rw [List.dropWhile_cons_of_neg hp]

/-- Stripping whitespace before the alphanumeric filter is redundant. -/
theorem filter_pyStrip (s : PyStr) :
    (pyStrip s).filter isAsciiAlnum = s.filter isAsciiAlnum := by
  unfold pyStrip
  rw [List.filter_reverse, filter_dropWhile_of_imp _ _ space_not_alnum,
    List.filter_reverse, List.reverse_reverse,
    filter_dropWhile_of_imp _ _ space_not_alnum]

/-- The strip of a label is empty exactly when the label is all whitespace. -/
theorem pyStrip_eq_nil_iff (s : PyStr) :
    pyStrip s = [] ↔ ∀ c ∈ s, isPySpace c = true := by
  unfold pyStrip
  rw [List.reverse_eq_nil_iff, List.dropWhile_eq_nil_iff]
  constructor
  · intro h c hc
    have hsplit : c ∈ s.takeWhile isPySpace ++ s.dropWhile isPySpace := by
      rw [List.takeWhile_append_dropWhile]; exact hc
    rcases List.mem_append.mp hsplit with h1 | h2
    · exact List.mem_takeWhile_imp h1
    · exact h c (List.mem_reverse.mpr h2)
  · intro h c hc
    exact h c (List.IsSuffix.mem (List.mem_reverse.mp hc) (List.dropWhile_suffix _))

/-- dropWhile is the identity on a list none of whose members satisfy the
    predicate. -/
theorem dropWhile_eq_self_of_all (p : Nat → Bool) (l : PyStr)
    (h : ∀ c ∈ l, p c = false) : l.dropWhile p = l := by
  cases l with
  | nil => rfl
  | cons a t => exact List.dropWhile_cons_of_neg (by simp [h a (by simp)])

/-- Stripping is the identity on a label with no whitespace at all. -/
theorem pyStrip_eq_self (s : PyStr) (h : ∀ c ∈ s, isPySpace c = false) :
    pyStrip s = s := by
  unfold pyStrip
  rw [dropWhile_eq_self_of_all _ _ h,
    dropWhile_eq_self_of_all _ _ (fun c hc => h c (List.mem_reverse.mp hc)),
    List.reverse_reverse]

/-- Every character of a normalized key is ASCII alphanumeric. -/
theorem normalize_key_all_alnum (L : PyStr) :
    ∀ c ∈ normalize_key L, isAsciiAlnum c = true := by
  intro c hc
  unfold normalize_key at hc
  cases hf : (pyStrip L).filter isAsciiAlnum with
  | nil => rw [hf] at hc; simp at hc
  | cons c0 r0 =>
    rw [hf] at hc
    have hmem : ∀ x ∈ c0 :: r0, isAsciiAlnum x = true := by
      intro x hx
      exact (List.mem_filter.mp (hf ▸ hx)).2
    rcases List.mem_cons.mp hc with h | h
    · exact h ▸ pyUpperChar_alnum c0 (hmem c0 (by simp))
    · exact hmem c (List.mem_cons_of_mem c0 h)

/-- On an all-alphanumeric nonempty key, normalization only uppercases
    the head. -/
theorem normalize_key_cons_alnum (c : Nat) (r : PyStr)
    (h : ∀ x ∈ (c :: r : PyStr), isAsciiAlnum x = true) :
    normalize_key (c :: r) = pyUpperChar c :: r := by
  unfold normalize_key
  rw [pyStrip_eq_self _ (fun x hx => alnum_not_space x (h x hx)),
    List.filter_eq_self.mpr h]

/-- The head of a normalized key is already uppercased. -/
theorem normalize_key_head_upper (L : PyStr) (c : Nat) (r : PyStr)
    (h : normalize_key L = c :: r) : pyUpperChar c = c := by
  unfold normalize_key at h
  cases hf : (pyStrip L).filter isAsciiAlnum with
  | nil => rw [hf] at h; exact absurd h (by simp)
  | cons c0 r0 =>
    rw [hf] at h
    have hc : c = pyUpperChar c0 := List.head_eq_of_cons_eq h.symm
    rw [hc]
    exact pyUpperChar_idem c0

/-- C9: normalization is idempotent — applying normalize to a key that is
    already the result of normalize returns it unchanged. -/
theorem normalize_key_idempotent :
    ∀ L : PyStr, normalize_key (normalize_key L) = normalize_key L := by
  intro L
  cases hnk : normalize_key L with
  | nil => rfl
  | cons c r =>
    have hall : ∀ x ∈ (c :: r : PyStr), isAsciiAlnum x = true := by
      intro x hx
      exact normalize_key_all_alnum L x (hnk ▸ hx)
    rw [normalize_key_cons_alnum c r hall, normalize_key_head_upper L c r hnk]

/-- C2: normalize removes every character that is not an ASCII letter or
    digit (leading and trailing whitespace vanishes with them), uppercases
    the first remaining character leaving the rest unchanged, and returns
    the empty string when nothing remains; in particular Test 1 maps to
    Test1, a padded college maps to College, and the empty label maps to
    itself.  It is a total function of the label. -/
theorem normalize_key_matches_spec :
    (∀ s : PyStr, normalize_key s = specNormalize s) ∧
    normalize_key (pyStr "Test 1") = pyStr "Test1" ∧
    normalize_key (pyStr "  college  ") = pyStr "College" ∧
    normalize_key (pyStr "") = pyStr "" := by
  refine ⟨?_, by decide, by decide, by decide⟩
  intro s
  unfold normalize_key specNormalize
  rw [filter_pyStrip]

/-- C1: a two-level column whose sub-label is empty, whitespace-only, or
    contains the Unnamed placeholder is keyed by the normalized top label
    alone; any other two-level column is keyed by the normalized top
    label, an underscore and the normalized sub label; in particular the
    pair SuperSet with Unnamed: 3 keys as SuperSet and the pair SuperSet
    with Test1 keys as SuperSet_Test1. -/
theorem colKey_pair_spec :
    (∀ top sub : PyStr, sub.all isPySpace = true ∨ pyIn (pyStr "Unnamed") sub = true →
        colKey (.pair top sub) = normalize_key top) ∧
    (∀ top sub : PyStr, sub.all isPySpace = false → pyIn (pyStr "Unnamed") sub = false →
        colKey (.pair top sub) = normalize_key top ++ 95 :: normalize_key sub) ∧
    colKey (.pair (pyStr "SuperSet") (pyStr "Unnamed: 3")) = pyStr "SuperSet" ∧
    colKey (.pair (pyStr "SuperSet") (pyStr "Test1")) = pyStr "SuperSet_Test1" := by
  refine ⟨?_, ?_, by decide, by decide⟩
  · intro top sub h
    simp only [colKey]
    rcases h with h | h
    · exact if_pos (Or.inr ((pyStrip_eq_nil_iff sub).mpr (List.all_eq_true.mp h)))
    · exact if_pos (Or.inl h)
  · intro top sub h1 h2
    simp only [colKey]
    rw [if_neg]
    rintro (hc | hc)
    · rw [h2] at hc
      exact absurd hc (by simp)
    · have hall := (pyStrip_eq_nil_iff sub).mp hc
      rw [List.all_eq_true.mpr hall] at h1
      exact absurd h1 (by simp)

/-- Dict assignment changes exactly the written key. -/
theorem dictGet_dictSet {V : Type} (d : List (PyStr × V)) (k : PyStr) (v : V) (q : PyStr) :
    dictGet (dictSet d k v) q = if q = k then some v else dictGet d q := by
  induction d with
  | nil =>
    by_cases h : q = k
    · simp [dictSet, dictGet, h]
    · simp [dictSet, dictGet, h, Ne.symm h]
  | cons p rest ih =>
    obtain ⟨k0, v0⟩ := p
    by_cases h0 : k0 = k
    · subst h0
      by_cases hq : q = k0
      · subst hq
        simp [dictSet, dictGet]
      · simp [dictSet, dictGet, hq, Ne.symm hq]
    · by_cases hq : q = k0
      · subst hq
        simp [dictSet, dictGet, h0, Ne.symm h0]
      · simp [dictSet, dictGet, h0, hq, Ne.symm hq, ih]

/-- Reading the dict built by the flattening loop returns the value of
    the last column in column order whose key is the one read. -/
theorem dictGet_flatten_foldl (row : Row) (cols : List Col)
    (init : List (PyStr × Value)) (k : PyStr) :
    dictGet (cols.foldl (fun student c => dictSet student (colKey c) (rowGet row c)) init) k =
      match cols.reverse.find? (fun c => decide (colKey c = k)) with
      | some c => some (rowGet row c)
      | none => dictGet init k := by
  induction cols generalizing init with
  | nil => simp
  | cons c rest ih =>
    rw [List.foldl_cons, ih, List.reverse_cons, List.find?_append]
    cases hf : rest.reverse.find? (fun c => decide (colKey c = k)) with
    | some c2 => simp [Option.or]
    | none =>
      by_cases hck : colKey c = k
      · simp [Option.or, List.find?, hck, dictGet_dictSet]
      · simp [Option.or, List.find?, hck, Ne.symm hck, dictGet_dictSet]

/-- C4: flattening yields one flat record per row in input order, each
    mapping the normalized key of every column to the value of that
    column in the row, the later column winning when two columns share a
    normalized key; the example row with the two College test columns
    flattens to College_Test1 80 and College_Test2 90. -/
theorem convert_to_flat_json_spec :
    (∀ df : DataFrame, (convert_to_flat_json df).length = df.rows.length) ∧
    (∀ (df : DataFrame) (i : Nat),
        (convert_to_flat_json df)[i]? = (df.rows[i]?).map (flattenRow df.cols)) ∧
    (∀ (cols : List Col) (row : Row) (k : PyStr),
        dictGet (flattenRow cols row) k =
          (cols.reverse.find? (fun c => decide (colKey c = k))).map (fun c => rowGet row c)) ∧
    dictGet (flattenRow [colT1, colT2] exRowC4) (pyStr "College_Test1") = some (.num 80) ∧
    dictGet (flattenRow [colT1, colT2] exRowC4) (pyStr "College_Test2") = some (.num 90) := by
  refine ⟨?_, ?_, ?_, by decide, by decide⟩
  · intro df
    exact List.length_map df.rows (flattenRow df.cols)
  · intro df i
    exact List.getElem?_map (flattenRow df.cols) df.rows i
  · intro cols row k
    unfold flattenRow
    rw [dictGet_flatten_foldl]
    cases cols.reverse.find? (fun c => decide (colKey c = k)) <;> simp [dictGet]

/-- find_roll_col returns none exactly when no column matches the roll
    keyword. -/
theorem find_roll_col_eq_none_iff (cols : List Col) :
    find_roll_col cols = none ↔ ∀ c ∈ cols, rollMatches c = false := by
  induction cols with
  | nil => simp [find_roll_col]
  | cons c rest ih =>
    by_cases h : rollMatches c = true
    · simp [find_roll_col, h]
    · simp only [Bool.not_eq_true] at h
      simp [find_roll_col, h, ih]

/-- C8: the roll-column locator scans columns in order, matching the roll
    keyword case-insensitively against either level of a two-level
    identifier or against a flat label, and returns the first match; when
    no column matches, the locator is empty and the endpoint surfaces the
    ColumnNotFound server error with status 500. -/
theorem find_roll_col_spec :
    (∀ cols : List Col, find_roll_col cols = none ↔ ∀ c ∈ cols, rollMatches c = false) ∧
    (∀ (cols : List Col) (c : Col), find_roll_col cols = some c →
        rollMatches c = true ∧
        ∃ pre post, cols = pre ++ c :: post ∧ ∀ c2 ∈ pre, rollMatches c2 = false) ∧
    (∀ (df : DataFrame) (roll_no : PyStr), find_roll_col df.cols = none →
        statusOf (get_student_by_roll df roll_no) = some 500) := by
  refine ⟨find_roll_col_eq_none_iff, ?_, ?_⟩
  · intro cols
    induction cols with
    | nil => intro c h; simp [find_roll_col] at h
    | cons c0 rest ih =>
      intro c h
      by_cases h0 : rollMatches c0 = true
      · rw [find_roll_col, if_pos h0] at h
        cases h
        exact ⟨h0, [], rest, rfl, by simp⟩
      · simp only [Bool.not_eq_true] at h0
        rw [find_roll_col, if_neg (by simp [h0])] at h
        obtain ⟨hm, pre, post, hsplit, hpre⟩ := ih c h
        refine ⟨hm, c0 :: pre, post, by rw [hsplit]; rfl, ?_⟩
        intro c2 hc2
        rcases List.mem_cons.mp hc2 with h2 | h2
        · rw [h2]; exact h0
        · exact hpre c2 h2
  · intro df roll_no h
    unfold get_student_by_roll
    rw [h]
    rfl

/-- getD agrees with positional access below the length. -/
theorem list_getD_eq_getElem {A : Type} (l : List A) (d : A) (n : Nat) (h : n < l.length) :
    l.getD n d = l[n] := by
  simp [List.getD_eq_getElem?_getD, List.getElem?_eq_getElem h]

/-- getD reads inside the left part of an append below its length. -/
theorem list_getD_append_lt {A : Type} (pre rest : List A) (j : Nat) (d : A)
    (h : j < pre.length) : (pre ++ rest).getD j d = pre.getD j d := by
  induction pre generalizing j with
  | nil => simp at h
  | cons a t ih =>
    cases j with
    | zero => rfl
    | succ n =>
      simp only [List.cons_append, List.getD_cons_succ]
      exact ih n (by simpa using h)

/-- getD at the length of the left part of an append reads the pivot. -/
theorem list_getD_append_len {A : Type} (pre : List A) (v : A) (post : List A) (d : A) :
    (pre ++ v :: post).getD pre.length d = v := by
  induction pre with
  | nil => rfl
  | cons a t ih => simpa using ih

/-- An in-bounds getD read is a member of the list. -/
theorem list_getD_mem {A : Type} (l : List A) (j : Nat) (d : A) (h : j < l.length) :
    l.getD j d ∈ l := by
  induction l generalizing j with
  | nil => simp at h
  | cons a t ih =>
    cases j with
    | zero => simp
    | succ n =>
      simp only [List.getD_cons_succ]
      exact List.mem_cons_of_mem a (ih n (by simpa using h))

/-- idxmax is defined on every nonempty series. -/
theorem maxIdxVal_eq_none_iff (l : List ℚ) (h : maxIdxVal l = none) : l = [] := by
  cases l with
  | nil => rfl
  | cons x xs =>
    unfold maxIdxVal at h
    cases h2 : maxIdxVal xs with
    | none => rw [h2] at h; simp at h
    | some jv =>
      rw [h2] at h
      obtain ⟨j, v⟩ := jv
      by_cases hx : x < v <;> simp [hx] at h

/-- A nonempty series has an idxmax position and value. -/
theorem maxIdxVal_of_ne_nil (l : List ℚ) (h : l ≠ []) :
    ∃ j v, maxIdxVal l = some (j, v) := by
  cases hm : maxIdxVal l with
  | none => exact absurd (maxIdxVal_eq_none_iff l hm) h
  | some jv =>
    obtain ⟨a, b⟩ := jv
    exact ⟨a, b, rfl⟩

/-- idxmax returns the position and value of the first maximum: every
    element before the position is strictly smaller, every element after
    it is at most the value. -/
theorem maxIdxVal_spec (l : List ℚ) :
    ∀ (j : Nat) (v : ℚ), maxIdxVal l = some (j, v) →
    ∃ pre post, l = pre ++ v :: post ∧ pre.length = j ∧
      (∀ q ∈ pre, q < v) ∧ (∀ q ∈ post, q ≤ v) := by
  induction l with
  | nil => intro j v h; simp [maxIdxVal] at h
  | cons x xs ih =>
    intro j v h
    unfold maxIdxVal at h
    cases h2 : maxIdxVal xs with
    | none =>
      rw [h2] at h
      have hxs := maxIdxVal_eq_none_iff xs h2
      rw [Option.some_inj, Prod.mk.injEq] at h
      obtain ⟨hj, hv⟩ := h
      refine ⟨[], [], by simp [hxs, hv], by simpa using hj, by simp, by simp⟩
    | some jv =>
      obtain ⟨j0, v0⟩ := jv
      rw [h2] at h
      dsimp only at h
      obtain ⟨pre0, post0, hsplit, hlen, hpre, hpost⟩ := ih j0 v0 h2
      by_cases hx : x < v0
      · rw [if_pos hx, Option.some_inj, Prod.mk.injEq] at h
        obtain ⟨hj, hv⟩ := h
        refine ⟨x :: pre0, post0, ?_, ?_, ?_, ?_⟩
        · rw [← hv, List.cons_append, hsplit]
        · rw [← hj]; simp [hlen]
        · intro q hq
          rcases List.mem_cons.mp hq with h3 | h3
          · rw [h3, ← hv]; exact hx
          · rw [← hv]; exact hpre q h3
        · intro q hq
          rw [← hv]; exact hpost q hq
      · rw [if_neg hx, Option.some_inj, Prod.mk.injEq] at h
        obtain ⟨hj, hv⟩ := h
        have hv0x : v0 ≤ x := le_of_not_lt hx
        refine ⟨[], xs, by rw [← hv]; rfl, by simpa using hj, by simp, ?_⟩
        intro q hq
        rw [hsplit] at hq
        rw [← hv]
        rcases List.mem_append.mp hq with h3 | h3
        · exact le_trans (le_of_lt (hpre q h3)) hv0x
        · rcases List.mem_cons.mp h3 with h4 | h4
          · rw [h4]; exact hv0x
          · exact le_trans (hpost q h4) hv0x

/-- C7: on a nonempty row set with a locatable roll column, the topper
    endpoint sums the located platform columns per row with missing cells
    contributing zero, and returns the roll cell and total of the row
    with the maximal total, the first such row in row order on a tie. -/
theorem get_platform_topper_spec (df : DataFrame) (platform : PyStr) (rc : Col)
    (hrc : find_roll_col df.cols = some rc) (hne : df.rows ≠ []) :
    ∃ i : Nat, i < df.rows.length ∧
      get_platform_topper df platform =
        .ok (rowGet (df.rows.getD i []) rc,
          rowTotal (platformCols df.cols platform) (df.rows.getD i [])) ∧
      (∀ j : Nat, j < df.rows.length →
        rowTotal (platformCols df.cols platform) (df.rows.getD j []) ≤
          rowTotal (platformCols df.cols platform) (df.rows.getD i [])) ∧
      (∀ j : Nat, j < i →
        rowTotal (platformCols df.cols platform) (df.rows.getD j []) <
          rowTotal (platformCols df.cols platform) (df.rows.getD i [])) := by
  have htne : df.rows.map (rowTotal (platformCols df.cols platform)) ≠ [] := by
    simpa using hne
  obtain ⟨j, v, hm⟩ := maxIdxVal_of_ne_nil _ htne
  obtain ⟨pre, post, hsplit, hlen, hpre, hpost⟩ := maxIdxVal_spec _ j v hm
  have hlength : (df.rows.map (rowTotal (platformCols df.cols platform))).length =
      df.rows.length := List.length_map _ _
  have hjlt : j < df.rows.length := by
    rw [← hlength, hsplit, ← hlen]
    simp only [List.length_append, List.length_cons]
    omega
  have htotD : ∀ n : Nat, n < df.rows.length →
      (df.rows.map (rowTotal (platformCols df.cols platform))).getD n 0 =
        rowTotal (platformCols df.cols platform) (df.rows.getD n []) := by
    intro n hn
    rw [list_getD_eq_getElem _ _ n (by rw [hlength]; exact hn),
      List.getElem_map, list_getD_eq_getElem _ _ n hn]
  have hvi : (df.rows.map (rowTotal (platformCols df.cols platform))).getD j 0 = v := by
    rw [hsplit, ← hlen, list_getD_append_len]
  have hvrow : rowTotal (platformCols df.cols platform) (df.rows.getD j []) = v := by
    rw [← htotD j hjlt, hvi]
  refine ⟨j, hjlt, ?_, ?_, ?_⟩
  · unfold get_platform_topper
    rw [hrc, hm, hvrow]
    rfl
  · intro n hn
    rw [← htotD n hn, hvrow]
    have hmem0 := list_getD_mem (df.rows.map (rowTotal (platformCols df.cols platform))) n 0
      (by rw [hlength]; exact hn)
    have hmem : (df.rows.map (rowTotal (platformCols df.cols platform))).getD n 0 ∈
        pre ++ v :: post := by
      rw [← hsplit]; exact hmem0
    rcases List.mem_append.mp hmem with h3 | h3
    · exact le_of_lt (hpre _ h3)
    · rcases List.mem_cons.mp h3 with h4 | h4
      · rw [h4]
      · exact hpost _ h4
  · intro n hn
    rw [← htotD n (lt_trans hn hjlt), hvrow]
    have hnpre : n < pre.length := by rw [hlen]; exact hn
    have heq : (df.rows.map (rowTotal (platformCols df.cols platform))).getD n 0 =
        pre.getD n 0 := by
      rw [hsplit, list_getD_append_lt _ _ _ _ hnpre]
    rw [heq]
    exact hpre _ (list_getD_mem pre n 0 hnpre)

/-- C3: on the specification dataset the department average for CSE on
    platform College is 90; on a dataset where a second column has an
    asymmetric mean the result is the mean of the per-column means, 75,
    not the flat mean over all cells, 80; and when zero rows match the
    department the endpoint does not surface the 404 NotFound it raises
    internally: the blanket except clause converts it into a 500 server
    error whose detail quotes the swallowed 404. -/
theorem department_average_behavior :
    get_department_average exDf (pyStr "CSE") = .ok [(pyStr "College", some 90)] ∧
    get_department_average exDf2 (pyStr "CSE") = .ok [(pyStr "College", some 75)] ∧
    get_department_average exDf (pyStr "EEE") =
      .error (.http ⟨500, pyStr "404: No students found for this department!"⟩) :=
  ⟨by decide, by decide, by decide⟩

/-- C5: the platform average computes each located column independently
    over all rows, skipping missing cells, keyed by the raw queried
    platform name, an underscore and the raw sub label (a lowercased
    query reappears lowercased in the key); but when the platform matches
    no column the endpoint does not surface the 404 NotFound it raises
    internally: the blanket except clause converts it into a 500 server
    error whose detail quotes the swallowed 404. -/
theorem platform_average_behavior :
    get_platform_average exDf (pyStr "College") = .ok [(pyStr "College_Test1", some 90)] ∧
    get_platform_average exDf (pyStr "college") = .ok [(pyStr "college_Test1", some 90)] ∧
    get_platform_average exDf2 (pyStr "College") =
      .ok [(pyStr "College_Test1", some 90), (pyStr "College_Test2", some 60)] ∧
    get_platform_average exDf (pyStr "NoSuch") =
      .error (.http ⟨500,
        pyStr "404: Platform " ++ 39 :: pyStr "NoSuch" ++ 39 :: pyStr " not found!"⟩) :=
  ⟨by decide, by decide, by decide, by decide⟩

/-- C6: a well-formed roll-number query matching zero rows does not reach
    the client as a 404 NotFound on either endpoint: the 404 raised
    internally is converted by the blanket except clause into a 500
    server error, indistinguishable in status from the 500 produced when
    the roll-number column itself is missing. -/
theorem student_lookup_not_found_behavior :
    get_student_by_roll exDf (pyStr "ZZZ") =
      .error (.http ⟨500, pyStr "404: Student not found!"⟩) ∧
    get_student_average exDf (pyStr "ZZZ") =
      .error (.http ⟨500, pyStr "404: Student not found!"⟩) ∧
    get_student_by_roll exDfNoRoll (pyStr "A1") =
      .error (.http ⟨500, pyStr "500: Roll No column not found in Excel!"⟩) :=
  ⟨by decide, by decide, by decide⟩

/-- C10: the department and CRT list filters succeed with an empty list
    when the filter column exists and zero rows match, while the
    department average treats the same situation as an error. -/
theorem empty_filter_returns_empty_list :
    (∀ (df : DataFrame) (dept : PyStr) (dcol : Col),
        df.cols.find? deptColMatches = some dcol →
        df.rows.filter (fun r => cellMatchesQuery r dcol dept) = [] →
        get_students_by_department df dept = .ok []) ∧
    (∀ (df : DataFrame) (crt_batch : PyStr) (ccol : Col),
        df.cols.find? crtColMatches = some ccol →
        df.rows.filter (fun r => cellMatchesQuery r ccol crt_batch) = [] →
        get_students_by_crt df crt_batch = .ok []) ∧
    (∀ (df : DataFrame) (dept : PyStr) (dcol : Col),
        df.cols.find? deptColMatches = some dcol →
        df.rows.filter (fun r => cellMatchesQuery r dcol dept) = [] →
        ∃ e, get_department_average df dept = .error e) := by
  refine ⟨?_, ?_, ?_⟩
  · intro df dept dcol h1 h2
    unfold get_students_by_department
    rw [h1]
    dsimp only
    rw [h2]
    rfl
  · intro df crt_batch ccol h1 h2
    unfold get_students_by_crt
    rw [h1]
    dsimp only
    rw [h2]
    rfl
  · intro df dept dcol h1 h2
    unfold get_department_average
    rw [h1]
    dsimp only
    rw [h2]
    exact ⟨_, rfl⟩

/-- Witness for C1 at the two example columns of the specification. -/
theorem colKey_pair_spec_witness :
    colKey (.pair (pyStr "SuperSet") (pyStr "Unnamed: 3")) = normalize_key (pyStr "SuperSet") ∧
    colKey (.pair (pyStr "SuperSet") (pyStr "Test1")) =
      normalize_key (pyStr "SuperSet") ++ 95 :: normalize_key (pyStr "Test1") :=
  ⟨colKey_pair_spec.1 (pyStr "SuperSet") (pyStr "Unnamed: 3") (Or.inr (by decide)),
   colKey_pair_spec.2.1 (pyStr "SuperSet") (pyStr "Test1") (by decide) (by decide)⟩

/-- Witness for C7 on the tie dataset: the topper is a row with the
    maximal College total and every earlier row scores strictly less. -/
theorem get_platform_topper_spec_witness :
    ∃ i : Nat, i < exDfTie.rows.length ∧
      get_platform_topper exDfTie (pyStr "College") =
        .ok (rowGet (exDfTie.rows.getD i []) colRoll,
          rowTotal (platformCols exDfTie.cols (pyStr "College")) (exDfTie.rows.getD i [])) ∧
      (∀ j : Nat, j < exDfTie.rows.length →
        rowTotal (platformCols exDfTie.cols (pyStr "College")) (exDfTie.rows.getD j []) ≤
          rowTotal (platformCols exDfTie.cols (pyStr "College")) (exDfTie.rows.getD i [])) ∧
      (∀ j : Nat, j < i →
        rowTotal (platformCols exDfTie.cols (pyStr "College")) (exDfTie.rows.getD j []) <
          rowTotal (platformCols exDfTie.cols (pyStr "College")) (exDfTie.rows.getD i [])) :=
  get_platform_topper_spec exDfTie (pyStr "College") colRoll (by decide) (by decide)

/-- Witness for C8: the locator picks the roll column past a non-matching
    column, and a dataset without any roll column yields status 500. -/
theorem find_roll_col_spec_witness :
    (rollMatches colRoll = true ∧
      ∃ pre post, [colDept, colRoll] = pre ++ colRoll :: post ∧
        ∀ c2 ∈ pre, rollMatches c2 = false) ∧
    statusOf (get_student_by_roll exDfNoRoll (pyStr "A1")) = some 500 :=
  ⟨find_roll_col_spec.2.1 [colDept, colRoll] colRoll (by decide),
   find_roll_col_spec.2.2 exDfNoRoll (pyStr "A1") (by decide)⟩

/-- Witness for C10 on concrete datasets with no matching rows. -/
theorem empty_filter_returns_empty_list_witness :
    get_students_by_department exDf (pyStr "EEE") = .ok [] ∧
    get_students_by_crt exDfCrt (pyStr "Batch9") = .ok [] ∧
    ∃ e, get_department_average exDf (pyStr "EEE") = .error e :=
  ⟨empty_filter_returns_empty_list.1 exDf (pyStr "EEE") colDept (by decide) (by decide),
   empty_filter_returns_empty_list.2.1 exDfCrt (pyStr "Batch9") colCrt (by decide) (by decide),
   empty_filter_returns_empty_list.2.2 exDf (pyStr "EEE") colDept (by decide) (by decide)⟩

end Tempx
